import Mathlib

/-!
Verification development for the mongo data-redistribution coordinator
excerpt and the sliding-window standard deviation helper.

The definitions below are shallow embeddings of the C++ source:

* `WindowFunctionStdDev` from
  `src/mongo/db/pipeline/window_function/window_function_stddev.h`
  is embedded as a state record `StdDevState` with `update`, `add`,
  `remove`, `reset` and `getValue` following the member functions line
  by line.  Doubles held by the accumulators are modelled as exact
  rationals; IEEE nonfiniteness of an input value is modelled by a
  dedicated constructor, mirroring the explicit nonfinite tracking the
  class performs with `_nonfiniteValueCount`.

* `ConfigsvrReshardCollectionCommand::Invocation::typedRun` from
  `src/mongo/db/s/config/configsvr_reshard_collection_cmd.cpp`
  is embedded as `typedRun`, an explicit state-passing function from an
  operation context, a request and a registry state to an
  `Except ErrorCode ReshardingCoordinatorDocument` together with the
  resulting registry state.  External collaborators (the collator
  factory, the catalog client, the chunk manager, UUID generation) are
  embedded as fields of the operation context holding their observed
  results.
-/

namespace MongoModel

/- ===================== sliding window stddev ===================== -/

/-- Numeric input value as seen by WindowFunctionStdDev::update: either a
value that is not numeric (ignored), a finite numeric value (its exact
magnitude as a rational), or a nonfinite double or decimal (NaN or an
infinity). -/
inductive MValue where
  | nonNumeric : MValue
  | finite (q : ℚ) : MValue
  | nonfinite : MValue
deriving DecidableEq, Repr

/-- State of WindowFunctionStdDev: the two AccumulatorSum members, the
sample flag, the running count and the running count of nonfinite
values. -/
structure StdDevState where
  sum : ℚ
  m2 : ℚ
  isSamp : Bool
  count : Int
  nonfiniteValueCount : Int
deriving DecidableEq, Repr

/-- Initial state, as set up by the WindowFunctionStdDev constructor. -/
def StdDevState.init (isSamp : Bool) : StdDevState :=
  { sum := 0, m2 := 0, isSamp := isSamp, count := 0, nonfiniteValueCount := 0 }

/-- WindowFunctionStdDev::reset. -/
def StdDevState.reset (s : StdDevState) : StdDevState :=
  { s with m2 := 0, sum := 0, count := 0, nonfiniteValueCount := 0 }

/-- WindowFunctionStdDev::update, with quantity +1 for add and -1 for
remove.  Non-numeric values are ignored; nonfinite values bump the two
counters and return; otherwise the Welford-style running sum and M2 are
maintained exactly as the source does, including the special cases for
an empty window. -/
def StdDevState.update (s : StdDevState) (value : MValue) (quantity : Int) :
    StdDevState :=
  match value with
  | .nonNumeric => s
  | .nonfinite =>
      { s with nonfiniteValueCount := s.nonfiniteValueCount + quantity,
               count := s.count + quantity }
  | .finite q =>
      if s.count = 0 then
        { s with count := s.count + 1, sum := s.sum + q }
      else if s.count + quantity = 0 then
        s.reset
      else
        let x : ℚ := (s.count : ℚ) * q - s.sum
        let newCount : Int := s.count + quantity
        { s with
            count := newCount,
            sum := s.sum + q * (quantity : ℚ),
            m2 := s.m2 + x * x * (quantity : ℚ)
                    / ((newCount : ℚ) * ((newCount : ℚ) - (quantity : ℚ))) }

/-- WindowFunctionStdDev::add. -/
def StdDevState.add (s : StdDevState) (value : MValue) : StdDevState :=
  s.update value 1

/-- WindowFunctionStdDev::remove. -/
def StdDevState.remove (s : StdDevState) (value : MValue) : StdDevState :=
  s.update value (-1)

/-- Result of WindowFunctionStdDev::getValue: a quiet NaN, the default
BSON null, or the square root of the given rational radicand (the source
returns Value(sqrt(radicand)); the radicand m2 / adjustedCount is kept
exactly, since sqrt is injective on nonnegative reals). -/
inductive StdDevResult where
  | nan : StdDevResult
  | bsonNull : StdDevResult
  | sqrtOf (radicand : ℚ) : StdDevResult
deriving DecidableEq, Repr

/-- WindowFunctionStdDev::getValue. -/
def StdDevState.getValue (s : StdDevState) : StdDevResult :=
  if s.nonfiniteValueCount > 0 then
    .nan
  else
    let adjustedCount : Int := if s.isSamp then s.count - 1 else s.count
    if adjustedCount = 0 then
      .bsonNull
    else
      .sqrtOf (s.m2 / (adjustedCount : ℚ))

/- ============ configsvrReshardCollection command ============ -/

/-- Error codes raised by typedRun.  ErrorCodes::BadValue is the code
the command uses for every static request-validation failure; the spec
classifies it as InvalidRequest. -/
inductive ErrorCode where
  | illegalOperation : ErrorCode
  | invalidOptions : ErrorCode
  | badValue : ErrorCode
deriving DecidableEq, Repr

/-- Namespace of a collection: database name plus collection name. -/
structure NamespaceString where
  db : String
  coll : String
deriving DecidableEq, Repr

/-- Outcome of resolving the supplied collation BSON through the
collator factory: a null collator means the simple binary collation. -/
inductive CollatorResult where
  | simple : CollatorResult
  | nonSimple : CollatorResult
deriving DecidableEq, Repr

/-- One entry of the _presetReshardedChunks array: the shard it is
destined for and the field-name shapes of its min and max bounds. -/
structure ReshardedChunk where
  recipientShardId : String
  minFields : List String
  maxFields : List String
deriving DecidableEq, Repr

/-- The ConfigsvrReshardCollection request: the command parameter
namespace, the new key pattern (its ordered field names), and the
optional unique flag, collation (embedded as its resolved collator
outcome), zones list (zone names), explicit preset chunk list, and
initial chunk count hint. -/
structure ReshardRequest where
  nss : NamespaceString
  key : List String
  unique : Option Bool
  collation : Option CollatorResult
  zones : Option (List String)
  presetReshardedChunks : Option (List ReshardedChunk)
  numInitialChunks : Option Int
deriving DecidableEq, Repr

/-- Operation context for one invocation, holding the observed results
of the external collaborators typedRun consults: the cluster role and
write concern of the call, the test-commands flag, the zone names of
the tags the catalog client returns for the collection, the existing
collection UUID read from the chunk manager, and the UUID freshly
minted by UUID::gen for this invocation. -/
structure OpCtx where
  isConfigServer : Bool
  writeConcernMajority : Bool
  testCommandsEnabled : Bool
  authoritativeTags : List String
  collectionUUID : Nat
  freshReshardingUUID : Nat
deriving DecidableEq, Repr

/-- The ReshardingCoordinatorDocument state enum.  typedRun constructs
the document with kUnused; the coordinator state machine later walks
the remaining phases. -/
inductive CoordinatorStateEnum where
  | unused : CoordinatorStateEnum
  | initializing : CoordinatorStateEnum
  | preparingToDonate : CoordinatorStateEnum
  | cloning : CoordinatorStateEnum
  | applying : CoordinatorStateEnum
  | blockingWrites : CoordinatorStateEnum
  | committing : CoordinatorStateEnum
  | done : CoordinatorStateEnum
  | error : CoordinatorStateEnum
deriving DecidableEq, Repr

/-- The durable ReshardingCoordinatorDocument that typedRun assembles:
the constructor arguments (temporary namespace, state, donor and
recipient shard lists), the CommonReshardingMetadata fields
(resharding UUID, source namespace, existing UUID, new key), and the
zones and preset chunks copied from the request. -/
structure ReshardingCoordinatorDocument where
  tempReshardingNss : NamespaceString
  state : CoordinatorStateEnum
  donorShards : List String
  recipientShards : List String
  reshardingUUID : Nat
  nss : NamespaceString
  existingUUID : Nat
  reshardingKey : List String
  zones : Option (List String)
  presetReshardedChunks : Option (List ReshardedChunk)
deriving DecidableEq, Repr

/-- Modelled from the spec: validateZones (declared in
resharding_util.h, body not under src/) checks the requested zone
names against the collection tags returned by the catalog client; the
assignment must cover the tagged zones and may reference only zones
actually associated with the collection. -/
def validateZonesOk (zones : List String) (authoritativeTags : List String) :
    Bool :=
  authoritativeTags.all (fun t => zones.contains t) &&
    zones.all (fun z => authoritativeTags.contains z)

/-- Modelled from the spec: validateReshardedChunks (declared in
resharding_util.h, body not under src/) checks that every preset chunk
has min and max boundaries consistent with the shape of the new key
pattern. -/
def validateReshardedChunksOk (chunks : List ReshardedChunk)
    (keyFields : List String) : Bool :=
  chunks.all (fun c => c.minFields == keyFields && c.maxFields == keyFields)

/-- Modelled from the spec: constructTemporaryReshardingNss (declared
in resharding_util.h, body not under src/) derives the temporary
working namespace deterministically from the source database name and
the existing collection UUID. -/
def constructTemporaryReshardingNss (db : String) (existingUUID : Nat) :
    NamespaceString :=
  { db := db, coll := "system.resharding." ++ Nat.repr existingUUID }

/-- Registry state threaded through typedRun: the persisted coordinator
documents and the source-collection identities under which a coordinator
instance is registered. -/
structure SysState where
  persistedRecords : List ReshardingCoordinatorDocument
  registeredKeys : List (NamespaceString × Nat)
deriving DecidableEq, Repr

/-- Modelled from the spec: ReshardingCoordinator::getOrCreate (body
not under src/).  If an instance is already registered for the source
collection identity it is returned unchanged; otherwise the initial
record is persisted and a new instance is registered under that key. -/
def getOrCreate (st : SysState) (doc : ReshardingCoordinatorDocument) :
    SysState :=
  if st.registeredKeys.contains (doc.nss, doc.existingUUID) then
    st
  else
    { persistedRecords := st.persistedRecords ++ [doc],
      registeredKeys := st.registeredKeys ++ [(doc.nss, doc.existingUUID)] }

/-- Document construction of typedRun lines 115 to 135: the temporary
namespace from the source db and the existing UUID, state kUnused,
empty donor and recipient lists, the CommonReshardingMetadata with the
freshly minted resharding UUID, and the zones and preset chunks from
the request. -/
def buildCoordinatorDoc (ctx : OpCtx) (req : ReshardRequest) :
    ReshardingCoordinatorDocument :=
  { tempReshardingNss :=
      constructTemporaryReshardingNss req.nss.db ctx.collectionUUID,
    state := .unused,
    donorShards := [],
    recipientShards := [],
    reshardingUUID := ctx.freshReshardingUUID,
    nss := req.nss,
    existingUUID := ctx.collectionUUID,
    reshardingKey := req.key,
    zones := req.zones,
    presetReshardedChunks := req.presetReshardedChunks }

/-- ConfigsvrReshardCollectionCommand::Invocation::typedRun.  Each
uassert of the source becomes a guard returning the corresponding
error code with the registry state untouched; when every guard passes
the coordinator document is built and handed to getOrCreate, and the
invocation succeeds with that document. -/
def typedRun (ctx : OpCtx) (req : ReshardRequest) (st : SysState) :
    Except ErrorCode ReshardingCoordinatorDocument × SysState :=
  if ¬ ctx.isConfigServer then
    (.error .illegalOperation, st)
  else if ¬ ctx.writeConcernMajority then
    (.error .invalidOptions, st)
  else if req.unique.getD false then
    (.error .badValue, st)
  else if req.collation = some .nonSimple then
    (.error .badValue, st)
  else if ¬ ctx.authoritativeTags.isEmpty ∧ req.zones.isNone then
    (.error .badValue, st)
  else if ¬ ctx.authoritativeTags.isEmpty ∧
      ¬ validateZonesOk (req.zones.getD []) ctx.authoritativeTags then
    (.error .badValue, st)
  else if req.presetReshardedChunks.isSome ∧ ¬ ctx.testCommandsEnabled then
    (.error .badValue, st)
  else if req.presetReshardedChunks.isSome ∧ req.numInitialChunks.isSome then
    (.error .badValue, st)
  else if req.presetReshardedChunks.isSome ∧
      ¬ validateReshardedChunksOk (req.presetReshardedChunks.getD []) req.key then
    (.error .badValue, st)
  else
    let doc := buildCoordinatorDoc ctx req
    (.ok doc, getOrCreate st doc)

/-- Error component of a typedRun outcome, if any. -/
def resultErr (r : Except ErrorCode ReshardingCoordinatorDocument) :
    Option ErrorCode :=
  match r with
  | .error e => some e
  | .ok _ => none

/-- Document component of a typedRun outcome, if any. -/
def resultOk (r : Except ErrorCode ReshardingCoordinatorDocument) :
    Option ReshardingCoordinatorDocument :=
  match r with
  | .error _ => none
  | .ok d => some d

instance {ε α : Type} [DecidableEq ε] [DecidableEq α] :
    DecidableEq (Except ε α) := fun a b =>
  match a, b with
  | .error e1, .error e2 =>
      if h : e1 = e2 then .isTrue (by rw [h])
      else .isFalse (fun hh => h (Except.error.inj hh))
  | .ok d1, .ok d2 =>
      if h : d1 = d2 then .isTrue (by rw [h])
      else .isFalse (fun hh => h (Except.ok.inj hh))
  | .error _, .ok _ => .isFalse (fun hh => Except.noConfusion hh)
  | .ok _, .error _ => .isFalse (fun hh => Except.noConfusion hh)

/-- Static validation rules of spec section 4.1, as a predicate on one
invocation: true exactly when the request fails at least one rule
(wrong node, missing majority durability, uniqueness flag, non-trivial
collation, missing or unrelated zone assignment, or a preset-chunk
violation). -/
def staticValidationFails (ctx : OpCtx) (req : ReshardRequest) : Prop :=
  ¬ ctx.isConfigServer ∨
  ¬ ctx.writeConcernMajority ∨
  req.unique.getD false = true ∨
  req.collation = some .nonSimple ∨
  (¬ ctx.authoritativeTags.isEmpty ∧ req.zones.isNone) ∨
  (¬ ctx.authoritativeTags.isEmpty ∧
    ¬ validateZonesOk (req.zones.getD []) ctx.authoritativeTags) ∨
  (req.presetReshardedChunks.isSome ∧ ¬ ctx.testCommandsEnabled) ∨
  (req.presetReshardedChunks.isSome ∧ req.numInitialChunks.isSome) ∨
  (req.presetReshardedChunks.isSome ∧
    ¬ validateReshardedChunksOk (req.presetReshardedChunks.getD []) req.key)

instance (ctx : OpCtx) (req : ReshardRequest) :
    Decidable (staticValidationFails ctx req) := by
  unfold staticValidationFails
  infer_instance

/-- Validation order as the code enforces it: the metadata-authority
node check and the majority-durability check come first, then the four
request-shape rules of spec section 4.1 in their listed order
(uniqueness, collation, zone assignment, preset chunks).  The value is
the error of the earliest violated rule, or none when every rule
passes. -/
def expectedFirstError (ctx : OpCtx) (req : ReshardRequest) :
    Option ErrorCode :=
  if ¬ ctx.isConfigServer then some .illegalOperation
  else if ¬ ctx.writeConcernMajority then some .invalidOptions
  else if req.unique.getD false then some .badValue
  else if req.collation = some .nonSimple then some .badValue
  else if ¬ ctx.authoritativeTags.isEmpty ∧
      (req.zones.isNone ∨
        ¬ validateZonesOk (req.zones.getD []) ctx.authoritativeTags) then
    some .badValue
  else if req.presetReshardedChunks.isSome ∧
      (¬ ctx.testCommandsEnabled ∨ req.numInitialChunks.isSome ∨
        ¬ validateReshardedChunksOk (req.presetReshardedChunks.getD [])
            req.key) then
    some .badValue
  else none

/-- Empty registry state used by the concrete evaluations. -/
def st0 : SysState :=
  { persistedRecords := [], registeredKeys := [] }

/-- Concrete request used by the concrete evaluations: resharding of
testdb.coll onto the single-field key region, with no optional fields
set. -/
def reqPlain : ReshardRequest :=
  { nss := { db := "testdb", coll := "coll" },
    key := ["region"],
    unique := none,
    collation := none,
    zones := none,
    presetReshardedChunks := none,
    numInitialChunks := none }

/-- Concrete operation context on the config server with majority
write concern, no tags on the collection, test commands disabled. -/
def ctxOk : OpCtx :=
  { isConfigServer := true,
    writeConcernMajority := true,
    testCommandsEnabled := false,
    authoritativeTags := [],
    collectionUUID := 42,
    freshReshardingUUID := 5 }

/-- Concrete operation context on a node that is not the config
server. -/
def ctxNotConfig : OpCtx :=
  { ctxOk with isConfigServer := false }

/-- Concrete operation context equal to ctxOk except for a different
freshly minted resharding UUID, as a second invocation would see. -/
def ctxOk2 : OpCtx :=
  { ctxOk with freshReshardingUUID := 6 }

/-- Concrete operation context for a collection carrying one zone
tag. -/
def ctxTags : OpCtx :=
  { ctxOk with authoritativeTags := ["zoneA"] }

/-- Concrete request with the uniqueness flag set. -/
def reqUnique : ReshardRequest :=
  { reqPlain with unique := some true }

/-- Concrete request carrying an explicit preset chunk consistent with
the key shape. -/
def reqPreset : ReshardRequest :=
  { reqPlain with
      presetReshardedChunks :=
        some [{ recipientShardId := "shard1",
                minFields := ["region"],
                maxFields := ["region"] }] }

/-- Concrete stddev state holding one nonfinite value among four
values. -/
def sNf : StdDevState :=
  { sum := 3, m2 := 2, isSamp := false, count := 4, nonfiniteValueCount := 1 }

/-- Concrete sample stddev state holding exactly one finite value. -/
def sSamp1 : StdDevState :=
  { sum := 5, m2 := 0, isSamp := true, count := 1, nonfiniteValueCount := 0 }

/- ===================== helper lemmas ===================== -/

set_option maxHeartbeats 1000000 in
/-- Outcome dichotomy of typedRun: either every guard passed and the
invocation succeeds with the built document after getOrCreate, or some
guard failed and the invocation returns its error with the registry
state untouched. -/
theorem typedRun_cases (ctx : OpCtx) (req : ReshardRequest) (st : SysState) :
    typedRun ctx req st =
      (Except.ok (buildCoordinatorDoc ctx req),
        getOrCreate st (buildCoordinatorDoc ctx req)) ∨
    ∃ e, typedRun ctx req st = (Except.error e, st) := by
  unfold typedRun
  split_ifs <;> first | exact Or.inl rfl | exact Or.inr ⟨_, rfl⟩

set_option maxHeartbeats 1000000 in
/-- Refinement of the guard chain: the error typedRun reports is
exactly the earliest violated rule as listed by expectedFirstError. -/
theorem typedRun_first_error (ctx : OpCtx) (req : ReshardRequest)
    (st : SysState) :
    resultErr (typedRun ctx req st).1 = expectedFirstError ctx req := by
  unfold typedRun expectedFirstError resultErr
  split_ifs <;> simp_all

set_option maxHeartbeats 1000000 in
/-- Static validation fails exactly when the guard chain reports some
error. -/
theorem validation_fails_iff (ctx : OpCtx) (req : ReshardRequest) :
    staticValidationFails ctx req ↔ expectedFirstError ctx req ≠ none := by
  unfold staticValidationFails expectedFirstError
  split_ifs <;> simp_all <;> tauto

/-- A typedRun outcome whose error component is present is that
error. -/
theorem resultErr_eq_some {r : Except ErrorCode ReshardingCoordinatorDocument}
    {e : ErrorCode} (h : resultErr r = some e) : r = Except.error e := by
  cases r <;> simp_all [resultErr]

/-- When the expected first error is present, typedRun returns exactly
that error with the registry state unchanged. -/
theorem typedRun_error_of_first {ctx : OpCtx} {req : ReshardRequest}
    {st : SysState} {e : ErrorCode}
    (h : expectedFirstError ctx req = some e) :
    typedRun ctx req st = (Except.error e, st) := by
  rcases typedRun_cases ctx req st with hok | ⟨e2, herr⟩
  · exfalso
    have h2 := typedRun_first_error ctx req st
    rw [hok] at h2
    simp [resultErr] at h2
    rw [h] at h2
    exact Option.noConfusion h2
  · have h2 := typedRun_first_error ctx req st
    rw [herr] at h2
    simp only [resultErr] at h2
    rw [h] at h2
    obtain rfl : e2 = e := Option.some.inj h2
    exact herr

/-- A successful typedRun outcome carries exactly the built
coordinator document. -/
theorem typedRun_ok_doc {ctx : OpCtx} {req : ReshardRequest} {st : SysState}
    {doc : ReshardingCoordinatorDocument}
    (h : (typedRun ctx req st).1 = Except.ok doc) :
    doc = buildCoordinatorDoc ctx req := by
  rcases typedRun_cases ctx req st with hok | ⟨e, herr⟩
  · rw [hok] at h
    exact (Except.ok.inj h).symm
  · rw [herr] at h
    exact Except.noConfusion h

/-- A successful typedRun outcome means static validation passed. -/
theorem typedRun_ok_not_fails {ctx : OpCtx} {req : ReshardRequest}
    {st : SysState} {doc : ReshardingCoordinatorDocument}
    (h : (typedRun ctx req st).1 = Except.ok doc) :
    ¬ staticValidationFails ctx req := by
  intro hf
  have h2 := typedRun_first_error ctx req st
  rw [h] at h2
  simp only [resultErr] at h2
  exact (validation_fails_iff ctx req).mp hf h2.symm

/- ===================== claim theorems ===================== -/

/-- C1: a request failing any static validation rule of section 4.1
makes typedRun raise the classified error synchronously, with the
registry state (persisted records and registered instances) exactly as
before the call: no OperationRecord is persisted and no coordinator
instance is registered. -/
theorem typedRun_validation_failure_creates_no_state (ctx : OpCtx)
    (req : ReshardRequest) (st : SysState)
    (h : staticValidationFails ctx req) :
    ∃ e, typedRun ctx req st = (Except.error e, st) := by
  rcases typedRun_cases ctx req st with hok | ⟨e, herr⟩
  · exfalso
    have h1 : (typedRun ctx req st).1 =
        Except.ok (buildCoordinatorDoc ctx req) := by rw [hok]
    exact typedRun_ok_not_fails h1 h
  · exact ⟨e, herr⟩

/-- Witness for C1 at the concrete failing request reqUnique on the
concrete context ctxOk. -/
theorem typedRun_validation_failure_creates_no_state_witness :
    staticValidationFails ctxOk reqUnique ∧
    ∃ e, typedRun ctxOk reqUnique st0 = (Except.error e, st0) :=
  ⟨by decide,
    typedRun_validation_failure_creates_no_state ctxOk reqUnique st0
      (by decide)⟩

/-- C2 counterexample: for the concrete validated request reqPlain on
the concrete context ctxOk, the coordinator document the command builds
carries the state kUnused, not kInitializing, refuting the claim that
the claim that Phase of the initial record equals Initializing. -/
theorem initial_record_phase_counterexample :
    resultOk (typedRun ctxOk reqPlain st0).1 =
      some (buildCoordinatorDoc ctxOk reqPlain) ∧
    (buildCoordinatorDoc ctxOk reqPlain).state = CoordinatorStateEnum.unused ∧
    (buildCoordinatorDoc ctxOk reqPlain).state ≠
      CoordinatorStateEnum.initializing := by
  decide

/-- C2 amended: every document a successful typedRun produces has
state kUnused and empty donor-participant and recipient-participant
lists. -/
theorem initial_record_phase_unused_and_empty (ctx : OpCtx)
    (req : ReshardRequest) (st : SysState)
    (doc : ReshardingCoordinatorDocument)
    (h : (typedRun ctx req st).1 = Except.ok doc) :
    doc.state = CoordinatorStateEnum.unused ∧
    doc.donorShards = [] ∧ doc.recipientShards = [] := by
  rw [typedRun_ok_doc h]
  exact ⟨rfl, rfl, rfl⟩

/-- Witness for the amended C2 at the concrete validated request
reqPlain on the concrete context ctxOk. -/
theorem initial_record_phase_unused_and_empty_witness :
    (typedRun ctxOk reqPlain st0).1 =
      Except.ok (buildCoordinatorDoc ctxOk reqPlain) ∧
    ((buildCoordinatorDoc ctxOk reqPlain).state =
        CoordinatorStateEnum.unused ∧
      (buildCoordinatorDoc ctxOk reqPlain).donorShards = [] ∧
      (buildCoordinatorDoc ctxOk reqPlain).recipientShards = []) :=
  ⟨by decide,
    initial_record_phase_unused_and_empty ctxOk reqPlain st0 _ (by decide)⟩

/-- C3 counterexample: the concrete request reqUnique violates both
the uniqueness rule (rule 1 of the claimed order) and the
metadata-authority-node rule (rule 5 of the claimed order) on the
concrete context ctxNotConfig; the command reports IllegalOperation,
not the uniqueness-rule error BadValue that the claimed order
predicts. -/
theorem validation_order_counterexample :
    typedRun ctxNotConfig reqUnique st0 =
      (Except.error ErrorCode.illegalOperation, st0) ∧
    ErrorCode.illegalOperation ≠ ErrorCode.badValue := by
  decide

/-- C3 amended: the validator enforces the metadata-authority-node and
majority-durability checks first, then uniqueness, collation, zone
assignment and preset chunks in that order; for any request the
reported error is the earliest violated rule in this amended order, as
computed by expectedFirstError. -/
theorem validation_first_error_matches_code_order (ctx : OpCtx)
    (req : ReshardRequest) (st : SysState) :
    resultErr (typedRun ctx req st).1 = expectedFirstError ctx req :=
  typedRun_first_error ctx req st

/-- C7: on a node that is not the metadata authority, typedRun fails
with IllegalOperation, and on the metadata authority without majority
durability it fails with InvalidOptions; in both cases the request is
not processed further and the registry state is untouched. -/
theorem node_and_write_concern_checks_first (ctx : OpCtx)
    (req : ReshardRequest) (st : SysState) :
    (ctx.isConfigServer = false →
      typedRun ctx req st = (Except.error ErrorCode.illegalOperation, st)) ∧
    (ctx.isConfigServer = true → ctx.writeConcernMajority = false →
      typedRun ctx req st = (Except.error ErrorCode.invalidOptions, st)) := by
  constructor
  · intro h
    unfold typedRun
    rw [if_pos (by simp [h])]
  · intro h1 h2
    unfold typedRun
    rw [if_neg (by simp [h1]), if_pos (by simp [h2])]

/-- Witness for C7 at the concrete non-config-server context
ctxNotConfig. -/
theorem node_and_write_concern_checks_first_witness :
    ctxNotConfig.isConfigServer = false ∧
    typedRun ctxNotConfig reqPlain st0 =
      (Except.error ErrorCode.illegalOperation, st0) :=
  ⟨rfl, (node_and_write_concern_checks_first ctxNotConfig reqPlain st0).1 rfl⟩

/-- C8: the temporary working namespace of the built record is a
deterministic function of the source namespace and the existing
collection UUID; two successful constructions for the same source
collection agree on it even when the freshly minted operation UUIDs
differ. -/
theorem temp_nss_deterministic (ctx1 ctx2 : OpCtx) (req : ReshardRequest)
    (st1 st2 : SysState) (d1 d2 : ReshardingCoordinatorDocument)
    (huuid : ctx1.collectionUUID = ctx2.collectionUUID)
    (hfresh : ctx1.freshReshardingUUID ≠ ctx2.freshReshardingUUID)
    (h1 : (typedRun ctx1 req st1).1 = Except.ok d1)
    (h2 : (typedRun ctx2 req st2).1 = Except.ok d2) :
    d1.tempReshardingNss = d2.tempReshardingNss := by
  rw [typedRun_ok_doc h1, typedRun_ok_doc h2]
  simp [buildCoordinatorDoc, huuid]

/-- Witness for C8 at the concrete contexts ctxOk and ctxOk2, which
differ only in the freshly minted resharding UUID. -/
theorem temp_nss_deterministic_witness :
    ctxOk.collectionUUID = ctxOk2.collectionUUID ∧
    ctxOk.freshReshardingUUID ≠ ctxOk2.freshReshardingUUID ∧
    (buildCoordinatorDoc ctxOk reqPlain).tempReshardingNss =
      (buildCoordinatorDoc ctxOk2 reqPlain).tempReshardingNss :=
  ⟨rfl, by decide,
    temp_nss_deterministic ctxOk ctxOk2 reqPlain st0 st0 _ _ rfl (by decide)
      (by decide) (by decide)⟩

set_option maxHeartbeats 1000000 in
/-- C4: on the metadata authority with majority durability, a request
with the uniqueness flag set to true is rejected with the classified
validation error (BadValue, which the spec classifies as InvalidRequest),
and a request with the flag absent or false passes this rule: its
outcome is identical to the outcome with the flag absent. -/
theorem unique_flag_rule (ctx : OpCtx) (req : ReshardRequest) (st : SysState)
    (hcfg : ctx.isConfigServer = true)
    (hwc : ctx.writeConcernMajority = true) :
    (req.unique = some true →
      typedRun ctx req st = (Except.error ErrorCode.badValue, st)) ∧
    (req.unique = none ∨ req.unique = some false →
      typedRun ctx req st = typedRun ctx { req with unique := none } st) := by
  constructor
  · intro h
    apply typedRun_error_of_first
    unfold expectedFirstError
    rw [if_neg (by simp [hcfg]), if_neg (by simp [hwc]), if_pos (by simp [h])]
  · intro h
    have hu : req.unique.getD false = false := by
      rcases h with h | h <;> simp [h]
    unfold typedRun
    simp [hu, buildCoordinatorDoc]

/-- Witness for C4 at the concrete request reqUnique on the concrete
context ctxOk. -/
theorem unique_flag_rule_witness :
    ctxOk.isConfigServer = true ∧ ctxOk.writeConcernMajority = true ∧
    typedRun ctxOk reqUnique st0 = (Except.error ErrorCode.badValue, st0) :=
  ⟨rfl, rfl, (unique_flag_rule ctxOk reqUnique st0 rfl rfl).1 rfl⟩

/-- C5: on the metadata authority with majority durability, a request
carrying an explicit preset chunk list is rejected with the classified
validation error unless test commands are enabled, and rejected
whenever an initial-chunk-count hint is also present; whenever the
invocation succeeds with a preset, the boundaries of every preset chunk
were validated against the shape of the new key pattern. -/
theorem preset_chunks_rule (ctx : OpCtx) (req : ReshardRequest)
    (st : SysState) (hcfg : ctx.isConfigServer = true)
    (hwc : ctx.writeConcernMajority = true) :
    (req.presetReshardedChunks.isSome = true →
      ctx.testCommandsEnabled = false →
      typedRun ctx req st = (Except.error ErrorCode.badValue, st)) ∧
    (req.presetReshardedChunks.isSome = true →
      req.numInitialChunks.isSome = true →
      typedRun ctx req st = (Except.error ErrorCode.badValue, st)) ∧
    (∀ doc chunks, (typedRun ctx req st).1 = Except.ok doc →
      req.presetReshardedChunks = some chunks →
      validateReshardedChunksOk chunks req.key = true) := by
  refine ⟨?_, ?_, ?_⟩
  · intro hp ht
    apply typedRun_error_of_first
    unfold expectedFirstError
    rw [if_neg (by simp [hcfg]), if_neg (by simp [hwc])]
    split_ifs with h3 h4 h5 h6
    · rfl
    · rfl
    · rfl
    · rfl
    · exact absurd ⟨hp, Or.inl (by simp [ht])⟩ h6
  · intro hp hn
    apply typedRun_error_of_first
    unfold expectedFirstError
    rw [if_neg (by simp [hcfg]), if_neg (by simp [hwc])]
    split_ifs with h3 h4 h5 h6
    · rfl
    · rfl
    · rfl
    · rfl
    · exact absurd ⟨hp, Or.inr (Or.inl hn)⟩ h6
  · intro doc chunks hok hp
    have hnf := typedRun_ok_not_fails hok
    unfold staticValidationFails at hnf
    push_neg at hnf
    have h9 := hnf.2.2.2.2.2.2.2.2
    have hval := h9 (by simp [hp])
    rw [hp] at hval
    simpa using hval

/-- Witness for C5 at the concrete preset-carrying request reqPreset
on the concrete context ctxOk, where test commands are disabled. -/
theorem preset_chunks_rule_witness :
    ctxOk.isConfigServer = true ∧ ctxOk.writeConcernMajority = true ∧
    reqPreset.presetReshardedChunks.isSome = true ∧
    ctxOk.testCommandsEnabled = false ∧
    typedRun ctxOk reqPreset st0 = (Except.error ErrorCode.badValue, st0) :=
  ⟨rfl, rfl, rfl, rfl, (preset_chunks_rule ctxOk reqPreset st0 rfl rfl).1 rfl rfl⟩

/-- C6: on the metadata authority with majority durability, a request
against a collection that carries zone tags is rejected with the
classified validation error when it supplies no zone assignment, and
rejected when the supplied assignment names a zone not associated with
the collection; when the collection carries no tags the error outcome
is independent of the zones field, so no zone assignment is
required. -/
theorem zone_rule (ctx : OpCtx) (req : ReshardRequest) (st : SysState)
    (hcfg : ctx.isConfigServer = true)
    (hwc : ctx.writeConcernMajority = true) :
    (ctx.authoritativeTags ≠ [] → req.zones = none →
      typedRun ctx req st = (Except.error ErrorCode.badValue, st)) ∧
    (∀ zs z, ctx.authoritativeTags ≠ [] → req.zones = some zs → z ∈ zs →
      z ∉ ctx.authoritativeTags →
      typedRun ctx req st = (Except.error ErrorCode.badValue, st)) ∧
    (ctx.authoritativeTags = [] →
      resultErr (typedRun ctx req st).1 =
        resultErr (typedRun ctx { req with zones := none } st).1) := by
  refine ⟨?_, ?_, ?_⟩
  · intro htags hz
    apply typedRun_error_of_first
    unfold expectedFirstError
    rw [if_neg (by simp [hcfg]), if_neg (by simp [hwc])]
    split_ifs with h3 h4 h5 h6
    · rfl
    · rfl
    · rfl
    · rfl
    · exact absurd ⟨by simp [htags], Or.inl (by simp [hz])⟩ h5
  · intro zs z htags hz hmem hnotin
    apply typedRun_error_of_first
    unfold expectedFirstError
    rw [if_neg (by simp [hcfg]), if_neg (by simp [hwc])]
    split_ifs with h3 h4 h5 h6
    · rfl
    · rfl
    · rfl
    · rfl
    · refine absurd ⟨by simp [htags], Or.inr ?_⟩ h5
      rw [hz]
      unfold validateZonesOk
      simp only [Option.getD_some, Bool.and_eq_true, List.all_eq_true]
      rintro ⟨-, hb⟩
      exact hnotin (by simpa using hb z hmem)
  · intro htags
    rw [typedRun_first_error, typedRun_first_error]
    unfold expectedFirstError
    simp [htags]

/-- Witness for C6 at the concrete tagged-collection context ctxTags
with the concrete zone-less request reqPlain. -/
theorem zone_rule_witness :
    ctxTags.authoritativeTags ≠ [] ∧ reqPlain.zones = none ∧
    typedRun ctxTags reqPlain st0 = (Except.error ErrorCode.badValue, st0) :=
  ⟨by decide, rfl, (zone_rule ctxTags reqPlain st0 rfl rfl).1 (by decide) rfl⟩

/-- C9: whenever the running count of nonfinite values in the window
is positive, getValue returns NaN regardless of the other state, and
adding a nonfinite value increments the nonfinite count and the total
count while leaving the running sum and M2 accumulators untouched. -/
theorem stddev_nonfinite_behaviour (s : StdDevState) :
    (0 < s.nonfiniteValueCount → s.getValue = StdDevResult.nan) ∧
    (s.add MValue.nonfinite).nonfiniteValueCount =
      s.nonfiniteValueCount + 1 ∧
    (s.add MValue.nonfinite).count = s.count + 1 ∧
    (s.add MValue.nonfinite).sum = s.sum ∧
    (s.add MValue.nonfinite).m2 = s.m2 := by
  refine ⟨fun h => ?_, rfl, rfl, rfl, rfl⟩
  unfold StdDevState.getValue
  rw [if_pos h]

/-- Witness for C9 at the concrete state sNf holding one nonfinite
value. -/
theorem stddev_nonfinite_behaviour_witness :
    0 < sNf.nonfiniteValueCount ∧ sNf.getValue = StdDevResult.nan :=
  ⟨by decide, (stddev_nonfinite_behaviour sNf).1 (by decide)⟩

/-- C10: with no nonfinite values in the window, the sample variant
returns the default BSON null whenever the window holds exactly one
value, the population variant returns null exactly for an empty
window, and for larger windows both return the square root of M2
divided by the adjusted count (count minus one for sample, count for
population). -/
theorem stddev_null_and_sqrt_cases (s : StdDevState)
    (h : s.nonfiniteValueCount = 0) :
    (s.isSamp = true → s.count = 1 → s.getValue = StdDevResult.bsonNull) ∧
    (s.isSamp = false → (s.getValue = StdDevResult.bsonNull ↔ s.count = 0)) ∧
    (s.isSamp = true → 2 ≤ s.count →
      s.getValue = StdDevResult.sqrtOf (s.m2 / ((s.count : ℚ) - 1))) ∧
    (s.isSamp = false → 1 ≤ s.count →
      s.getValue = StdDevResult.sqrtOf (s.m2 / (s.count : ℚ))) := by
  have hnf : ¬ s.nonfiniteValueCount > 0 := by omega
  refine ⟨?_, ?_, ?_, ?_⟩
  · intro hs h1
    unfold StdDevState.getValue
    rw [if_neg hnf]
    simp [hs, h1]
  · intro hs
    unfold StdDevState.getValue
    rw [if_neg hnf]
    simp only [hs, if_false, Bool.false_eq_true]
    split_ifs with hc
    · simp [hc]
    · simp [hc]
  · intro hs h2
    unfold StdDevState.getValue
    rw [if_neg hnf]
    simp only [hs, if_true]
    rw [if_neg (by omega)]
    push_cast
    ring_nf
  · intro hs h1
    unfold StdDevState.getValue
    rw [if_neg hnf]
    simp only [hs, if_false, Bool.false_eq_true]
    rw [if_neg (by omega)]

/-- Witness for C10 at the concrete one-value sample state sSamp1. -/
theorem stddev_null_and_sqrt_cases_witness :
    sSamp1.nonfiniteValueCount = 0 ∧
    sSamp1.getValue = StdDevResult.bsonNull :=
  ⟨rfl, (stddev_null_and_sqrt_cases sSamp1 rfl).1 rfl rfl⟩

end MongoModel
